import Mathlib

/-!
Shallow embedding of the weather-pipeline repository (src/main.py and
src/initial-data.py) and proofs of the spec's claims about it.

Modelling conventions:
* A Python `datetime` is represented by the number of microseconds since the
  Unix epoch (`Dt := Nat`).  `replace(minute=0, second=0, microsecond=0)`
  becomes flooring to the hour; `timedelta(hours=1)` becomes adding
  `usPerHour` microseconds.
* A pandas `DataFrame` holding the Historical Dataset Store is a list of rows
  with the fixed column schema `['city', 'time', 'temp', 'rhum', 'prcp',
  'wspd']`.  Numeric weather measurements are carried as opaque
  `Option Int` payloads (the provider may omit any field; no claim computes
  with the numeric values, only moves them around).
* Python `None` is `Option.none`; a raised exception is an `Except.error`.
* The external meteostat provider (`Point` + `Hourly(...).fetch()`) is an
  oracle parameter: given latitude, longitude and the query window it either
  returns a list of time-indexed raw rows or fails (network / timeout /
  malformed response).
-/

/-- Microseconds per second. -/
def usPerSec : Nat := 1000000

/-- Microseconds per hour. -/
def usPerHour : Nat := 3600 * usPerSec

/-- A Python `datetime`, as microseconds since the Unix epoch. -/
abbrev Dt := Nat

/-- `dt.replace(minute=0, second=0, microsecond=0)`: floor to the hour
(src/main.py line 95). -/
def truncToHour (t : Dt) : Dt := (t / usPerHour) * usPerHour

/-- `dt + timedelta(hours=1)` (src/main.py line 97). -/
def addOneHour (t : Dt) : Dt := t + usPerHour

/-- `datetime(2021, 1, 1)` (src/main.py line 55), the fixed default
watermark, as microseconds since the Unix epoch (1609459200 s). -/
def defaultStart : Dt := 1609459200 * usPerSec

/-- One row of the Historical Dataset Store, column schema
`['city', 'time', 'temp', 'rhum', 'prcp', 'wspd']` (src/main.py line 116). -/
structure Row where
  city : String
  time : Dt
  temp : Option Int
  rhum : Option Int
  prcp : Option Int
  wspd : Option Int
deriving DecidableEq, Repr

/-- One row of the provider's raw hourly response: time-indexed with the
weather columns, no city column yet. -/
structure RawRow where
  time : Dt
  temp : Option Int
  rhum : Option Int
  prcp : Option Int
  wspd : Option Int
deriving DecidableEq, Repr

/-- Python errors the embedded pipeline can raise. -/
inductive PyErr where
  | attributeError
  | typeError
  | parseError
deriving DecidableEq, Repr

/-- `datetime.strptime(str(ts), "%Y-%m-%d %H:%M:%S")` (src/main.py line 48).
`str` of a pandas timestamp renders the sub-second part iff it is non-zero,
and the fixed format has no field for it, so the parse succeeds exactly when
the timestamp is a whole number of seconds; on success the parsed value
equals the input. -/
def strptimeFixedFormat (t : Dt) : Except Unit Dt :=
  if t % usPerSec = 0 then .ok t else .error ()

/-- `get_last_datetime_by_city` (src/main.py lines 32-56): filter the store
by city; if the filtered frame is non-empty, take `max()` of the `time`
column, stringify and re-parse it with the fixed format, re-raising on
failure; otherwise return `datetime(2021, 1, 1)`.  A non-empty filtered
frame is exactly one whose `time` column has a `max?`. -/
def get_last_datetime_by_city (df : List Row) (city_name : String) : Except Unit Dt :=
  match ((df.filter fun r => r.city == city_name).map Row.time).max? with
  | some m => strptimeFixedFormat m
  | none => .ok defaultStart

/-- What `load_parquet_weather_data` can evaluate to: a real DataFrame, or
the `pd.DataFrame` class object itself — the except-branch on src/main.py
line 27 assigns `pd.DataFrame` without calling it. -/
inductive StoreVal where
  | frame (rows : List Row)
  | classObj
deriving DecidableEq, Repr

/-- `load_parquet_weather_data` (src/main.py lines 11-29).  The argument is
what `pd.read_parquet` would produce: `some rows` on a successful read,
`none` when the file is missing or malformed (the call raises).  On the
exception path the source assigns the class `pd.DataFrame`, not an
instance. -/
def load_parquet_weather_data (readResult : Option (List Row)) : StoreVal :=
  match readResult with
  | some rows => .frame rows
  | none => .classObj

/-- The first statement of `get_last_datetime_by_city` applied to a loaded
store value: `parquet_weather_data[parquet_weather_data['city'] == name]`
(src/main.py line 44).  Subscripting the `pd.DataFrame` class object rather
than an instance raises `TypeError`. -/
def storeFilterByCity (s : StoreVal) (city_name : String) : Except PyErr (List Row) :=
  match s with
  | .frame rows => .ok (rows.filter fun r => r.city == city_name)
  | .classObj => .error .typeError

/-- Outcome of one meteostat query `Hourly(Point(lat, lon), start, end).fetch()`. -/
inductive ProviderResult where
  | ok (rows : List RawRow)
  | err
deriving DecidableEq, Repr

/-- The provider oracle: latitude, longitude, query start, query end. -/
abbrev Provider := Int → Int → Dt → Dt → ProviderResult

/-- What `fetch_hourly_data_from_meteostat_by_city` returns, together with
whether the external provider was invoked.  `result = none` models the
implicit Python `None` return. -/
structure FetchOut where
  result : Option (List Row)
  providerCalled : Bool
deriving DecidableEq, Repr

/-- `fetch_hourly_data_from_meteostat_by_city` (src/main.py lines 80-121).
`end` is floored to the hour, `start` is advanced by one hour; only when the
two differ does the body under `if not start_datetime == end_datetime:` run:
it queries the provider, returns an empty frame on an exception or on an
empty response, and otherwise stamps the city column, resets the time index
into a column and selects the fixed schema.  The `return` statement sits
inside that `if`, so when start equals end the function falls off its end
and implicitly returns `None`. -/
def fetch_hourly_data_from_meteostat_by_city (start_datetime end_datetime : Dt)
    (city_name : String) (latitude longitude : Int) (provider : Provider) : FetchOut :=
  let endDt := truncToHour end_datetime
  let startDt := addOneHour start_datetime
  if !(startDt == endDt) then
    match provider latitude longitude startDt endDt with
    | .err => { result := some [], providerCalled := true }
    | .ok raws =>
      if raws.isEmpty then
        { result := some [], providerCalled := true }
      else
        { result := some (raws.map fun r =>
            { city := city_name, time := r.time, temp := r.temp,
              rhum := r.rhum, prcp := r.prcp, wspd := r.wspd }),
          providerCalled := true }
  else
    { result := none, providerCalled := false }

/-- `concat_weather_data_by_city` (src/main.py lines 124-148): if the delta
frame is non-empty, either replace an empty store by the delta or append the
delta after the store's rows (the index reset renumbers rows but keeps their
order); an empty delta leaves the store untouched. -/
def concat_weather_data_by_city (meteostat_data_by_city parquet_weather_data : List Row) :
    List Row :=
  if !meteostat_data_by_city.isEmpty then
    if parquet_weather_data.isEmpty then meteostat_data_by_city
    else parquet_weather_data ++ meteostat_data_by_city
  else parquet_weather_data

/-- A JSON value, as produced by `json.load`: an object becomes a Python
dict, an array a Python list. -/
inductive Json where
  | num (n : Int)
  | str (s : String)
  | arr (xs : List Json)
  | obj (kvs : List (String × Json))

/-- `load_cities_info_from_json` (src/main.py lines 59-77): `json.load` the
file, re-raising any failure.  The argument is the parsed file contents,
`none` when the file is missing or malformed. -/
def load_cities_info_from_json (fileContents : Option Json) : Except Unit Json :=
  match fileContents with
  | some j => .ok j
  | none => .error ()

/-- `cities_infos.items()` (src/main.py line 184): defined only on a dict
(a JSON object); on a list — or any other value — Python raises
`AttributeError`. -/
def dictItems (j : Json) : Except PyErr (List (String × Json)) :=
  match j with
  | .obj kvs => .ok kvs
  | _ => .error .attributeError

/-- The Geocode Store file as the bootstrap leaves it (src/initial-data.py
lines 57-72): a JSON array whose elements are single-key objects mapping
`"<City>, <Country>"` to `{"latitude": ..., "longitude": ...}`.  Each entry
is (name, latitude, longitude). -/
def geocodeFileJson (entries : List (String × Int × Int)) : Json :=
  .arr (entries.map fun e =>
    .obj [(e.1, .obj [("latitude", .num e.2.1), ("longitude", .num e.2.2)])])

/-- Inputs of one iteration of the per-city loop in `main` (src/main.py
lines 184-197): the city's name and coordinates from the geocode dict, and
the `datetime.now()` sampled for it. -/
structure CityTask where
  name : String
  latitude : Int
  longitude : Int
  now : Dt
deriving DecidableEq, Repr

/-- One iteration of the per-city loop in `main` (src/main.py lines
184-197): resolve the watermark (a parse failure propagates and aborts the
run), fetch the delta (`None.empty` on the implicit-None return raises
`AttributeError`), `continue` without merging or persisting when the delta
is empty, otherwise merge and persist.  Returns the updated store and
whether this city's data was persisted. -/
def processCity (provider : Provider) (store : List Row) (t : CityTask) :
    Except PyErr (List Row × Bool) :=
  match get_last_datetime_by_city store t.name with
  | .error _ => .error .parseError
  | .ok last_datetime =>
    match (fetch_hourly_data_from_meteostat_by_city last_datetime t.now t.name
        t.latitude t.longitude provider).result with
    | none => .error .attributeError
    | some df =>
      if df.isEmpty then .ok (store, false)
      else .ok (concat_weather_data_by_city df store, true)

/-- The per-city loop of `main` over a list of city tasks: threads the store
through `processCity`, aborts on the first raised error, and records the
names of the cities whose data was persisted, in order. -/
def runEntities (provider : Provider) (store : List Row) :
    List CityTask → Except PyErr (List Row × List String)
  | [] => .ok (store, [])
  | t :: rest =>
    match processCity provider store t with
    | .error e => .error e
    | .ok (store', persisted) =>
      match runEntities provider store' rest with
      | .error e => .error e
      | .ok (finalStore, names) =>
        .ok (finalStore, (if persisted then [t.name] else []) ++ names)

/-- A sample store row used by the concrete witness theorems. -/
def sampleRow (city : String) (t : Dt) : Row :=
  { city := city, time := t, temp := some 25, rhum := some 70,
    prcp := some 0, wspd := some 10 }

/-- Claim C1, counterexample: with watermark `W = datetime(2021,1,1)` and
`now = W + 30 min` (so `now` truncated to the hour equals `W`), the fetch
still invokes the external provider — the computed window start `W + 1h`
differs from the computed end `W`, so the guard `not start == end` is true
and the provider is queried, contradicting the claim's "does not invoke the
external provider". -/
theorem fetch_no_refetch_claim_counterexample :
    truncToHour (defaultStart + 1800 * usPerSec) = defaultStart ∧
    (fetch_hourly_data_from_meteostat_by_city defaultStart
      (defaultStart + 1800 * usPerSec) "Uberaba" 0 0
      (fun _ _ _ _ => ProviderResult.ok [])).providerCalled = true := by
  decide

/-- Claim C1, amended: for every watermark `W` and "now" value `N` with
`truncToHour N = W`, the fetch computes start `W + 1h` and end `W`, which
always differ, so it DOES invoke the external provider over that inverted
window; the returned observation sequence is empty whenever the provider
errors or returns no data for it. -/
theorem fetch_trunc_now_eq_watermark_invokes_provider
    (W N : Dt) (c : String) (la lo : Int) (p : Provider)
    (h : truncToHour N = W) :
    (fetch_hourly_data_from_meteostat_by_city W N c la lo p).providerCalled = true ∧
    ((p la lo (addOneHour W) W = .err ∨ p la lo (addOneHour W) W = .ok []) →
      (fetch_hourly_data_from_meteostat_by_city W N c la lo p).result = some []) := by
  have hne : (addOneHour W == W) = false := by
    simp [addOneHour, usPerHour, usPerSec]
  constructor
  · simp only [fetch_hourly_data_from_meteostat_by_city, h, hne, Bool.not_false, if_true]
    cases hp : p la lo (addOneHour W) W with
    | err => rfl
    | ok raws =>
      by_cases hr : raws.isEmpty <;> simp [hp, hr]
  · intro hemp
    simp only [fetch_hourly_data_from_meteostat_by_city, h, hne, Bool.not_false, if_true]
    rcases hemp with h1 | h1 <;> simp [h1]

/-- Claim C1, witness for the amended theorem at a concrete input. -/
theorem fetch_trunc_now_eq_watermark_invokes_provider_witness :
    (fetch_hourly_data_from_meteostat_by_city defaultStart
      (defaultStart + 1800 * usPerSec) "Uberlândia" 1 2
      (fun _ _ _ _ => ProviderResult.err)).providerCalled = true ∧
    (fetch_hourly_data_from_meteostat_by_city defaultStart
      (defaultStart + 1800 * usPerSec) "Uberlândia" 1 2
      (fun _ _ _ _ => ProviderResult.err)).result = some [] := by
  have h := fetch_trunc_now_eq_watermark_invokes_provider defaultStart
    (defaultStart + 1800 * usPerSec) "Uberlândia" 1 2
    (fun _ _ _ _ => ProviderResult.err) (by decide)
  exact ⟨h.1, h.2 (Or.inl rfl)⟩

/-- Claim C2: when the computed window start (watermark + 1h) equals the
computed window end (now truncated to the hour), the provider is indeed not
called, but the function does NOT return an empty observation sequence: the
`return` statement sits inside the `if not start == end` block, so the
function falls through and implicitly returns Python `None` (modelled as
`result = none`), even with a provider that would hand back data.  Evaluated
at watermark `datetime(2021,1,1)` and now `datetime(2021,1,1) + 1h30min`. -/
theorem fetch_start_eq_end_returns_python_none :
    fetch_hourly_data_from_meteostat_by_city defaultStart
      (defaultStart + usPerHour + 1800 * usPerSec) "Uberaba" 0 0
      (fun _ _ _ _ => ProviderResult.ok
        [{ time := defaultStart, temp := some 20, rhum := none, prcp := none,
           wspd := none }]) =
    { result := none, providerCalled := false } := by
  decide

/-- Claim C3: loading the store from a missing or malformed file does not
yield an empty store.  The except branch assigns `pd.DataFrame` — the class
object, the call parentheses are missing — so the result is not a zero-row
frame, and the store filter that every subsequent watermark resolution
performs raises `TypeError` on it instead of behaving as on an empty
store. -/
theorem load_failure_binds_class_object :
    load_parquet_weather_data none = StoreVal.classObj ∧
    load_parquet_weather_data none ≠ StoreVal.frame [] ∧
    storeFilterByCity (load_parquet_weather_data none) "Uberlândia" =
      Except.error PyErr.typeError :=
  ⟨rfl, fun h => StoreVal.noConfusion h, rfl⟩

/-- Claim C4: the Geocode Store file as the bootstrap writes it is a JSON
array, so `json.load` hands the driver a Python list; `main` immediately
calls `.items()` on it, which only dicts support, so the driver raises
`AttributeError` for every bootstrap-format file instead of processing the
listed entities. -/
theorem bootstrap_geocode_file_rejected_by_driver
    (entries : List (String × Int × Int)) :
    load_cities_info_from_json (some (geocodeFileJson entries)) =
      Except.ok (geocodeFileJson entries) ∧
    dictItems (geocodeFileJson entries) = Except.error PyErr.attributeError :=
  ⟨rfl, rfl⟩

/-- Claim C5: merging a non-empty delta appends it after the store's rows —
the result has length `len S + len D`, its first `len S` rows are exactly
`S` in order, and the remaining rows are exactly `D` in order. -/
theorem concat_append_only (S D : List Row) (hD : D ≠ []) :
    (concat_weather_data_by_city D S).length = S.length + D.length ∧
    (concat_weather_data_by_city D S).take S.length = S ∧
    (concat_weather_data_by_city D S).drop S.length = D := by
  have hD' : D.isEmpty = false := by simp [List.isEmpty_iff, hD]
  by_cases hS : S.isEmpty
  · have hS' : S = [] := List.isEmpty_iff.mp hS
    subst hS'
    simp [concat_weather_data_by_city, hD']
  · have hS' : S.isEmpty = false := by
      cases h : S.isEmpty
      · rfl
      · exact absurd h hS
    refine ⟨?_, ?_, ?_⟩ <;>
      simp [concat_weather_data_by_city, hD', hS', List.take_left, List.drop_left,
        Nat.add_comm]

/-- Claim C5, witness: one-row store, one-row delta. -/
theorem concat_append_only_witness :
    ([sampleRow "Uberaba" defaultStart] ≠ ([] : List Row)) ∧
    ((concat_weather_data_by_city [sampleRow "Uberaba" defaultStart]
        [sampleRow "Uberlândia" defaultStart]).length = 1 + 1 ∧
      (concat_weather_data_by_city [sampleRow "Uberaba" defaultStart]
        [sampleRow "Uberlândia" defaultStart]).take 1 = [sampleRow "Uberlândia" defaultStart] ∧
      (concat_weather_data_by_city [sampleRow "Uberaba" defaultStart]
        [sampleRow "Uberlândia" defaultStart]).drop 1 = [sampleRow "Uberaba" defaultStart]) :=
  ⟨by decide, concat_append_only [sampleRow "Uberlândia" defaultStart]
    [sampleRow "Uberaba" defaultStart] (by decide)⟩

/-- Claim C6: resolving a watermark against a store with no rows for the
city returns the fixed default epoch `datetime(2021,1,1)`; against a store
whose city rows have a maximum timestamp that parses under the fixed format
(a whole number of seconds), it returns that maximum timestamp. -/
theorem get_last_datetime_resolves_watermark (df : List Row) (city : String) :
    ((df.filter fun r => r.city == city) = [] →
      get_last_datetime_by_city df city = .ok defaultStart) ∧
    (∀ m, ((df.filter fun r => r.city == city).map Row.time).max? = some m →
      m % usPerSec = 0 →
      get_last_datetime_by_city df city = .ok m) := by
  constructor
  · intro h
    simp [get_last_datetime_by_city, h]
  · intro m hm hpar
    simp [get_last_datetime_by_city, hm, strptimeFixedFormat, hpar]

/-- Claim C6, witness: the empty store and a one-row store. -/
theorem get_last_datetime_resolves_watermark_witness :
    get_last_datetime_by_city [] "Uberaba" = .ok defaultStart ∧
    get_last_datetime_by_city [sampleRow "Uberaba" defaultStart] "Uberaba" =
      .ok defaultStart :=
  ⟨(get_last_datetime_resolves_watermark [] "Uberaba").1 rfl,
   (get_last_datetime_resolves_watermark [sampleRow "Uberaba" defaultStart]
      "Uberaba").2 defaultStart (by decide) (by decide)⟩

/-- Claim C7: merging an empty delta returns the store unchanged — the empty
delta is a right identity of the merge (the delta is the first argument in
the source's parameter order). -/
theorem concat_empty_delta_identity (store : List Row) :
    concat_weather_data_by_city [] store = store := rfl

/-- Claim C8: when the window is non-empty (computed start differs from the
computed end) and the provider fails, the fetch returns an empty frame, the
driver's per-city step leaves the store unchanged and persists nothing for
that city, and the run over the remaining cities proceeds exactly as if the
failing city had not been listed. -/
theorem provider_failure_skips_entity
    (provider : Provider) (store : List Row) (t : CityTask) (rest : List CityTask)
    (wm : Dt)
    (hwm : get_last_datetime_by_city store t.name = .ok wm)
    (hwin : addOneHour wm ≠ truncToHour t.now)
    (hfail : provider t.latitude t.longitude (addOneHour wm) (truncToHour t.now) =
      ProviderResult.err) :
    (fetch_hourly_data_from_meteostat_by_city wm t.now t.name t.latitude t.longitude
        provider).result = some [] ∧
    processCity provider store t = .ok (store, false) ∧
    runEntities provider store (t :: rest) = runEntities provider store rest := by
  have hb : (addOneHour wm == truncToHour t.now) = false := by
    simp [hwin]
  have hfetch : fetch_hourly_data_from_meteostat_by_city wm t.now t.name t.latitude
      t.longitude provider = { result := some [], providerCalled := true } := by
    simp [fetch_hourly_data_from_meteostat_by_city, hb, hfail]
  have hproc : processCity provider store t = .ok (store, false) := by
    simp [processCity, hwm, hfetch]
  refine ⟨by simp [hfetch], hproc, ?_⟩
  cases hr : runEntities provider store rest with
  | error e => simp [runEntities, hproc, hr]
  | ok p => simp [runEntities, hproc, hr]

/-- Claim C8, witness: a failing provider, an empty store, one listed city. -/
theorem provider_failure_skips_entity_witness :
    (fetch_hourly_data_from_meteostat_by_city defaultStart
      (defaultStart + 2 * usPerHour) "Uberaba" 3 4
      (fun _ _ _ _ => ProviderResult.err)).result = some [] ∧
    processCity (fun _ _ _ _ => ProviderResult.err) []
      { name := "Uberaba", latitude := 3, longitude := 4,
        now := defaultStart + 2 * usPerHour } = .ok ([], false) ∧
    runEntities (fun _ _ _ _ => ProviderResult.err) []
      [{ name := "Uberaba", latitude := 3, longitude := 4,
         now := defaultStart + 2 * usPerHour }] =
      runEntities (fun _ _ _ _ => ProviderResult.err) [] [] :=
  provider_failure_skips_entity (fun _ _ _ _ => ProviderResult.err) []
    { name := "Uberaba", latitude := 3, longitude := 4,
      now := defaultStart + 2 * usPerHour } [] defaultStart rfl (by decide) rfl

/-- Claim C9: when the store has rows for the city and the maximum stored
timestamp fails to parse under the fixed format, the watermark resolver
propagates the error — it neither returns the default epoch nor any other
value. -/
theorem get_last_datetime_propagates_parse_error (df : List Row) (city : String)
    (m : Dt)
    (hm : ((df.filter fun r => r.city == city).map Row.time).max? = some m)
    (hbad : strptimeFixedFormat m = .error ()) :
    get_last_datetime_by_city df city = .error () := by
  simp [get_last_datetime_by_city, hm, hbad]

/-- Claim C9, witness: a store whose single row carries a timestamp one
microsecond past the hour. -/
theorem get_last_datetime_propagates_parse_error_witness :
    get_last_datetime_by_city [sampleRow "Uberaba" (defaultStart + 1)] "Uberaba" =
      .error () :=
  get_last_datetime_propagates_parse_error
    [sampleRow "Uberaba" (defaultStart + 1)] "Uberaba" (defaultStart + 1)
    (by decide) rfl

/-- Claim C10: the resolver re-parses `str(max)` with the fixed format
"%Y-%m-%d %H:%M:%S", which has no field for fractional seconds; so a store
whose maximum timestamp for the city is a perfectly valid date-time with a
non-zero sub-second part makes `get_last_datetime_by_city` raise even though
the stored value is not corrupt. -/
theorem get_last_datetime_rejects_fractional_seconds (df : List Row) (city : String)
    (m : Dt)
    (hm : ((df.filter fun r => r.city == city).map Row.time).max? = some m)
    (hfrac : m % usPerSec ≠ 0) :
    get_last_datetime_by_city df city = .error () := by
  have hbad : strptimeFixedFormat m = .error () := by
    simp [strptimeFixedFormat, hfrac]
  simp [get_last_datetime_by_city, hm, hbad]

/-- Claim C10, witness: a store whose single row carries a timestamp with
half a second of sub-second part. -/
theorem get_last_datetime_rejects_fractional_seconds_witness :
    get_last_datetime_by_city [sampleRow "Uberlândia" (defaultStart + 500000)]
      "Uberlândia" = .error () :=
  get_last_datetime_rejects_fractional_seconds
    [sampleRow "Uberlândia" (defaultStart + 500000)] "Uberlândia"
    (defaultStart + 500000) (by decide) (by decide)
